import Mathlib

/-!
Verification of the RIOT PTP client (`sys/net/ptp/ptp.c`, header `net/ptp.h`).

The development shallowly embeds the client: the process-wide mutable
variables become a `ClientState` record, handlers become pure functions from
state and decoded datagram to new state plus a list of externally visible
actions (clock step, clock rate adjustment, timer arming).  Machine integers
are modelled as `Nat`/`Int` with explicit reductions modulo `2^32`/`2^64`
(two's complement wrapping for the signed casts the C code performs).
-/

namespace PtpClient

/-- C `US_PER_SEC` from `timex.h`. -/
def US_PER_SEC : Nat := 1000000

/-- C `NS_PER_SEC` from `timex.h`. -/
def NS_PER_SEC : Nat := 1000000000

/-- Modulus of `uint32_t`. -/
def U32MOD : Nat := 4294967296

/-- Modulus of `uint64_t`. -/
def U64MOD : Nat := 18446744073709551616

/-- C `2^31`, bound of `int32_t`. -/
def I32BOUND : Int := 2147483648

/-- C `2^63`, bound of `int64_t`. -/
def I64BOUND : Int := 9223372036854775808

/-- Reduce an integer into the `int64_t` range, two's complement style:
the result is congruent modulo `2^64` and lies in `[-2^63, 2^63)`.  This is
what storing into / casting to `int64_t` does on the target. -/
def wrapI64 (x : Int) : Int := (x + I64BOUND) % (2 * I64BOUND) - I64BOUND

/-- Reduce an integer into the `int32_t` range, two's complement style. -/
def wrapI32 (x : Int) : Int := (x + I32BOUND) % (2 * I32BOUND) - I32BOUND

/-- The C cast `(int64_t)x` of a `uint64_t` value `x`. -/
def toI64 (x : Nat) : Int := wrapI64 (x % U64MOD)

/-- C `uint64_t` subtraction `a - b` (wraps modulo `2^64`). -/
def u64sub (a b : Nat) : Nat := (U64MOD + a % U64MOD - b % U64MOD) % U64MOD

/-- C `sizeof(ptp_hdr_t)`: the packed struct in `net/ptp.h` is
message_type/major_sdo_id (1) + version byte (1) + length (2) +
domain_number (1) + minor_sdo_id (1) + flags (2) + correction (8) +
type_specific (4) + clock_identity (8) + source_port_id (2) +
sequence_id (2) + _obsolete_control (1) + log_msg_interval (1) +
time_seconds (6) + time_nanoseconds (4). -/
def ptpHdrSize : Nat :=
  1 + 1 + 2 + 1 + 1 + 2 + 8 + 4 + 8 + 2 + 2 + 1 + 1 + 6 + 4

/-- C `sizeof(ptp_msg_delay_resp_t)`: header + client_clock_identity (8) +
client_source_port_id (2). -/
def ptpDelayRespSize : Nat := ptpHdrSize + 8 + 2

/-- C `sizeof(ptp_msg_announce_t)`: header + utc_offset (2) + _reserved (1) +
priority1 (1) + clock_quality (4) + priority2 (1) + identity (8) +
steps_removed (2) + time_source (1). -/
def ptpAnnounceSize : Nat := ptpHdrSize + 2 + 1 + 1 + 4 + 1 + 8 + 2 + 1

/-- PTP message type codes from `net/ptp.h`. -/
def MSG_TYPE_SYNC : Nat := 0x0

def MSG_TYPE_DELAY_REQ : Nat := 0x1

def MSG_TYPE_FOLLOW_UP : Nat := 0x8

def MSG_TYPE_DELAY_RESP : Nat := 0x9

def MSG_TYPE_ANNOUNCE : Nat := 0xb

/-- C `PTP_FLAG_TWO_STEP` from `net/ptp.h`. -/
def FLAG_TWO_STEP : Nat := 0x0200

/-- C `delay_req_interval = 10 * US_PER_SEC` (microseconds). -/
def delay_req_interval : Nat := 10 * US_PER_SEC

/-- C `delay_req_timeout = US_PER_SEC / 2` (microseconds). -/
def delay_req_timeout : Nat := US_PER_SEC / 2

/-- C `enum ptp_state`. -/
inductive PtpState where
  | idle
  | waitForFollowUp
  | waitForDelayResp
deriving DecidableEq, Repr

/-- The client's process-wide mutable variables, gathered into a record.
Field names follow the C globals; `state` is `enum ptp_state state`. -/
structure ClientState where
  state : PtpState
  /-- C `static uint16_t sequence_id` -/
  sequence_id : Nat
  /-- C `static uint16_t delay_req_sequence_id` -/
  delay_req_sequence_id : Nat
  /-- C `static uint64_t time_last` -/
  time_last : Nat
  /-- C `static uint64_t last_sync` -/
  last_sync : Nat
  /-- C `static uint8_t server_prio` -/
  server_prio : Nat
  /-- C `uint32_t ptp_rtt` -/
  ptp_rtt : Nat
  /-- C `uint16_t ptp_utc_offset` -/
  ptp_utc_offset : Nat
  /-- C `int32_t ptp_clock_drift` -/
  ptp_clock_drift : Int
  /-- C `ptp_clock_id_t ptp_local_clock_id` (8 bytes) -/
  ptp_local_clock_id : List Nat
  /-- C `ptp_clock_id_t ptp_server_clock_id` (8 bytes) -/
  ptp_server_clock_id : List Nat
deriving DecidableEq, Repr

/-- The decoded view of the 128-byte receive buffer: every field the C code
may read after casting the buffer to `ptp_hdr_t`, `ptp_msg_delay_resp_t` or
`ptp_msg_announce_t`.  Multi-byte integers are stored in host order (the
value `ntohs`/`ntohl` would return); `timeSeconds` keeps the 6 raw bytes
because the C code assembles the 48-bit value by hand. -/
structure Datagram where
  messageType : Nat
  versionMajor : Nat
  versionMinor : Nat
  /-- C `ntohs(hdr->length)` -/
  declaredLength : Nat
  /-- C `ntohs(hdr->flags)` -/
  flags : Nat
  /-- C `hdr->clock_identity`, 8 bytes -/
  clockIdentity : List Nat
  /-- C `ntohs(hdr->sequence_id)` -/
  sequenceId : Nat
  /-- C `hdr->time_seconds`, 6 bytes, big endian -/
  timeSeconds : List Nat
  /-- C `ntohl(hdr->time_nanoseconds)` -/
  timeNanoseconds : Nat
  /-- announce body: `ntohs(msg->utc_offset)` -/
  annUtcOffset : Nat
  /-- announce body: `msg->priority1` -/
  annPriority1 : Nat
  /-- delay-resp body: `resp->client_clock_identity`, 8 bytes -/
  respClientClockIdentity : List Nat
deriving DecidableEq, Repr

/-- Externally visible effects of a handler. -/
inductive Action where
  /-- C `ptp_clock_adjust(offset_ns)` -/
  | clockAdjust (offset_ns : Int)
  /-- C `ptp_clock_adjust_speed(drift)` -/
  | clockAdjustSpeed (drift : Int)
  /-- C `set_timer(interval)`, base interval in microseconds before the
  pseudorandom jitter is added -/
  | setTimer (interval_us : Nat)
deriving DecidableEq, Repr

/-- C `parse_timestamp`: assemble the 48-bit seconds field by hand and return
seconds and nanoseconds as a single `uint64_t` nanosecond count. -/
def parse_timestamp (d : Datagram) : Nat :=
  let s := d.timeSeconds
  let secs := s.getD 0 0 <<< 40 |||
              s.getD 1 0 <<< 32 |||
              s.getD 2 0 <<< 24 |||
              s.getD 3 0 <<< 16 |||
              s.getD 4 0 <<< 8 |||
              s.getD 5 0
  (secs * NS_PER_SEC + d.timeNanoseconds) % U64MOD

/-- C `is_selected_ptp_server`: `memcmp` of the stored server clock id against
the 8-byte clock identity of the header. -/
def is_selected_ptp_server (st : ClientState) (id : List Nat) : Prop :=
  st.ptp_server_clock_id = id

instance (st : ClientState) (id : List Nat) :
    Decidable (is_selected_ptp_server st id) := by
  unfold is_selected_ptp_server
  infer_instance

/-- C `adjust_time(server_time, local_time)`: step the clock by
`(int64_t)server_time - (int64_t)local_time + ptp_rtt / 2` and, when a
previous sync exists, update the smoothed clock-drift estimate.  All casts
and overflow behaviour of the C arithmetic are made explicit via
`wrapI64`/`wrapI32`; `Int.tdiv` is C's truncating signed division. -/
def adjust_time (st : ClientState) (server_time local_time : Nat) :
    ClientState × List Action :=
  let offset0 : Int := wrapI64 (toI64 server_time - toI64 local_time)
  let offset : Int := wrapI64 (offset0 + (st.ptp_rtt / 2 : Nat))
  let acts : List Action := [Action.clockAdjust offset]
  if st.last_sync ≠ 0 then
    let prod : Int := wrapI64 (offset * 4294967296)
    let interval : Int := toI64 (u64sub server_time st.last_sync)
    let tmp0 : Int := wrapI32 (Int.tdiv prod interval)
    let tmp1 : Int :=
      if st.ptp_clock_drift ≠ 0 then
        wrapI32 (Int.tdiv tmp0 8 + st.ptp_clock_drift)
      else tmp0
    let tmp2 : Int := if tmp1 < -42949673 ∨ 42949673 < tmp1 then 0 else tmp1
    ({ st with ptp_clock_drift := tmp2, last_sync := server_time % U64MOD },
     acts ++ [Action.clockAdjustSpeed tmp2])
  else
    ({ st with last_sync := server_time % U64MOD }, acts)

/-- C `adjust_rtt(sent, received)`: undo the half-RTT compensation on the sent
timestamp, truncate the `uint64_t` difference to `uint32_t`, reject values
above 200000 ns, otherwise smooth against the previous estimate; always
clear `last_sync`. -/
def adjust_rtt (st : ClientState) (sent received : Nat) : ClientState :=
  let sent1 := u64sub sent (st.ptp_rtt / 2)
  let tmp0 := u64sub received sent1 % U32MOD
  let tmp :=
    if 200000 < tmp0 then 0
    else if st.ptp_rtt ≠ 0 then (3 * st.ptp_rtt % U32MOD + tmp0) % U32MOD / 4
    else tmp0
  { st with ptp_rtt := tmp, last_sync := 0 }

/-- C `send_delay_req()`.  The socket interaction is abstracted by two
parameters: `sendFailed` is `retval < 0` of `sock_udp_send_aux`, and `txTs`
is the TX hardware timestamp if the socket delivered one (the C code
detects absence via the still-set `SOCK_AUX_GET_TIMESTAMP` flag). -/
def send_delay_req (st : ClientState) (sendFailed : Bool)
    (txTs : Option Nat) : ClientState × List Action :=
  let st1 := { st with
    delay_req_sequence_id := (st.delay_req_sequence_id + 1) % 65536 }
  let acts0 : List Action :=
    if sendFailed then [Action.setTimer delay_req_interval] else []
  match txTs with
  | none =>
    ({ st1 with state := PtpState.idle },
     acts0 ++ [Action.setTimer delay_req_interval])
  | some ts =>
    ({ st1 with time_last := ts % U64MOD, state := PtpState.waitForDelayResp },
     acts0 ++ [Action.setTimer delay_req_timeout])

/-- C `timer_event_handler`: arm the short timer when a follow up is pending,
send a delay request, then increment (age) the server priority.  The
increment is on a `uint8_t`, so it wraps modulo 256. -/
def timer_event_handler (st : ClientState) (sendFailed : Bool)
    (txTs : Option Nat) : ClientState × List Action :=
  let acts0 : List Action :=
    if st.state = PtpState.waitForFollowUp then
      [Action.setTimer delay_req_timeout]
    else []
  let r := send_delay_req st sendFailed txTs
  ({ r.1 with server_prio := (r.1.server_prio + 1) % 256 }, acts0 ++ r.2)

/-- C `handle_announce`: refresh the priority of the selected server, or
switch to a strictly better (numerically lower priority1) new server. -/
def handle_announce (st : ClientState) (d : Datagram) :
    ClientState × List Action :=
  if is_selected_ptp_server st d.clockIdentity then
    ({ st with server_prio := d.annPriority1 }, [])
  else
    if d.annPriority1 < st.server_prio then
      ({ st with
          state := PtpState.idle,
          ptp_server_clock_id := d.clockIdentity,
          server_prio := d.annPriority1,
          ptp_rtt := 0,
          ptp_utc_offset := d.annUtcOffset },
       [Action.setTimer delay_req_interval])
    else (st, [])

/-- Return code of `handle_msg`: `0`, `-ENOTSUP` or `-EBADMSG`. -/
inductive HandleRet where
  | ok
  | errNotSup
  | errBadMsg
deriving DecidableEq, Repr

/-- Result of one `handle_msg` invocation. -/
structure StepResult where
  st : ClientState
  actions : List Action
  ret : HandleRet
deriving DecidableEq, Repr

/-- C `handle_msg(hdr, length, timestamp)`: version check, minimum header
length check, then dispatch on the message type. -/
def handle_msg (st : ClientState) (d : Datagram) (length : Nat)
    (timestamp : Nat) : StepResult :=
  if d.versionMajor ≠ 2 ∨ 1 < d.versionMinor then
    ⟨st, [], HandleRet.errNotSup⟩
  else if length < ptpHdrSize then
    ⟨st, [], HandleRet.errBadMsg⟩
  else if d.messageType = MSG_TYPE_SYNC then
    if is_selected_ptp_server st d.clockIdentity then
      let st1 := { st with sequence_id := d.sequenceId }
      if d.flags &&& FLAG_TWO_STEP = 0 then
        let r := adjust_time st1 (parse_timestamp d) timestamp
        ⟨{ r.1 with state := PtpState.idle }, r.2, HandleRet.ok⟩
      else
        ⟨{ st1 with time_last := timestamp % U64MOD,
                    state := PtpState.waitForFollowUp }, [], HandleRet.ok⟩
    else ⟨st, [], HandleRet.ok⟩
  else if d.messageType = MSG_TYPE_FOLLOW_UP then
    if is_selected_ptp_server st d.clockIdentity ∧
        st.state = PtpState.waitForFollowUp then
      if d.sequenceId ≠ st.sequence_id then ⟨st, [], HandleRet.ok⟩
      else
        let r := adjust_time st (parse_timestamp d) st.time_last
        ⟨{ r.1 with state := PtpState.idle }, r.2, HandleRet.ok⟩
    else ⟨st, [], HandleRet.ok⟩
  else if d.messageType = MSG_TYPE_DELAY_RESP then
    if is_selected_ptp_server st d.clockIdentity ∧
        st.state = PtpState.waitForDelayResp then
      if length < ptpDelayRespSize then ⟨st, [], HandleRet.errBadMsg⟩
      else if d.respClientClockIdentity ≠ st.ptp_local_clock_id then
        ⟨st, [], HandleRet.ok⟩
      else if d.sequenceId ≠ st.delay_req_sequence_id then
        ⟨st, [], HandleRet.ok⟩
      else
        let st2 := adjust_rtt st st.time_last (parse_timestamp d)
        ⟨{ st2 with state := PtpState.idle },
         [Action.setTimer delay_req_interval], HandleRet.ok⟩
    else ⟨st, [], HandleRet.ok⟩
  else if d.messageType = MSG_TYPE_ANNOUNCE then
    if length < ptpAnnounceSize then ⟨st, [], HandleRet.errBadMsg⟩
    else
      let r := handle_announce st d
      ⟨r.1, r.2, HandleRet.ok⟩
  else ⟨st, [], HandleRet.ok⟩

/-- C `ptp_handler`: the socket callback.  `res` is the received payload
length, `rxTs` the RX hardware timestamp when available.  Messages without
an RX timestamp, or whose declared header length exceeds the payload, are
dropped before `handle_msg` runs. -/
def ptp_handler (st : ClientState) (d : Datagram) (res : Nat)
    (rxTs : Option Nat) : ClientState × List Action :=
  match rxTs with
  | none => (st, [])
  | some ts =>
    if res < d.declaredLength then (st, [])
    else
      let r := handle_msg st d res ts
      (r.st, r.actions)

/-- The client state right after `ptp_start_client`: the static globals are
zero initialised (`server_prio` is `UINT8_MAX`), and `luid_base` fills the
local clock id. -/
def initClientState (localId : List Nat) : ClientState :=
  { state := PtpState.idle
    sequence_id := 0
    delay_req_sequence_id := 0
    time_last := 0
    last_sync := 0
    server_prio := 255
    ptp_rtt := 0
    ptp_utc_offset := 0
    ptp_clock_drift := 0
    ptp_local_clock_id := localId
    ptp_server_clock_id := List.replicate 8 0 }

/-- C `true` on the clock-step action. -/
def isClockAdjustB : Action → Bool
  | Action.clockAdjust _ => true
  | _ => false

/-! ## Helper lemmas about the wrapping primitives -/

theorem wrapI64_eq_self {x : Int} (h1 : -I64BOUND ≤ x) (h2 : x < I64BOUND) :
    wrapI64 x = x := by
  unfold wrapI64
  unfold I64BOUND at *
  omega

theorem wrapI32_eq_self {x : Int} (h1 : -I32BOUND ≤ x) (h2 : x < I32BOUND) :
    wrapI32 x = x := by
  unfold wrapI32
  unfold I32BOUND at *
  omega

theorem toI64_eq_self {x : Nat} (h : (x : Int) < I64BOUND) : toI64 x = x := by
  unfold toI64 wrapI64 U64MOD
  unfold I64BOUND at *
  omega

theorem u64sub_eq_sub {a b : Nat} (hb : b ≤ a) (ha : a < U64MOD) :
    u64sub a b = a - b := by
  unfold u64sub U64MOD at *
  omega

/-! ## Concrete states and datagrams used in the scenario theorems -/

/-- A freshly started client (the aged-priority scenarios start here, since
`server_prio` boots at `UINT8_MAX`). -/
def agedState : ClientState := initClientState (List.replicate 8 1)

/-- A freshly started client used for the RTT wraparound scenario. -/
def bootRttState : ClientState := initClientState (List.replicate 8 2)

/-- Client state of scenario S3: waiting for a delay response sent at
`time_last = 1e9` with a prior RTT estimate of 40000 ns. -/
def delayScenState : ClientState :=
  { initClientState (List.replicate 8 7) with
      state := PtpState.waitForDelayResp
      ptp_rtt := 40000
      time_last := 1000000000
      delay_req_sequence_id := 5 }

/-- Delay-Resp of scenario S3: origin timestamp 1 s + 60 ns, matching
sequence id and client clock identity. -/
def delayScenMsg : Datagram :=
  { messageType := 0x9, versionMajor := 2, versionMinor := 0,
    declaredLength := 54, flags := 0,
    clockIdentity := List.replicate 8 0, sequenceId := 5,
    timeSeconds := [0, 0, 0, 0, 0, 1], timeNanoseconds := 60,
    annUtcOffset := 0, annPriority1 := 0,
    respClientClockIdentity := List.replicate 8 7 }

/-- Client tracking server `3,3,3,3,3,3,3,3` at priority 10 with a stored
UTC offset of 5 s. -/
def selAnnState : ClientState :=
  { initClientState (List.replicate 8 7) with
      ptp_server_clock_id := List.replicate 8 3
      ptp_utc_offset := 5
      server_prio := 10 }

/-- Announce from the currently selected server advertising priority 7 and
UTC offset 37 s. -/
def selAnnMsg : Datagram :=
  { messageType := 0xb, versionMajor := 2, versionMinor := 1,
    declaredLength := 64, flags := 0,
    clockIdentity := List.replicate 8 3, sequenceId := 0,
    timeSeconds := [0, 0, 0, 0, 0, 0], timeNanoseconds := 0,
    annUtcOffset := 37, annPriority1 := 7,
    respClientClockIdentity := List.replicate 8 0 }

/-! ## Claim theorems -/

/-- C5 counterexample: the periodic tick increments `server_prio` on a
`uint8_t` without saturation.  Starting from the boot value 255, a single
tick wraps the stored priority around to 0, a strictly smaller value: the
claim that the value saturates at 255 and never wraps is false. -/
theorem server_prio_wraps_at_255 :
    agedState.server_prio = 255 ∧
    (timer_event_handler agedState false none).1.server_prio = 0 ∧
    (0 : Nat) < 255 := by decide

/-- C5 amended: each tick of the periodic timer increments the selected
server's stored priority1 by one modulo 256 — so the value stays below 256,
but a tick at 255 wraps the priority around to 0 instead of saturating. -/
theorem tick_increments_prio_mod_256 (st : ClientState) (sendFailed : Bool)
    (txTs : Option Nat) :
    (timer_event_handler st sendFailed txTs).1.server_prio =
      (st.server_prio + 1) % 256 ∧
    (timer_event_handler st sendFailed txTs).1.server_prio ≤ 255 := by
  cases txTs <;> simp [timer_event_handler, send_delay_req] <;> omega

/-- C6 counterexample: with `pending_tx_ts = 1e9`, `rtt_ns = 40000` and a
Delay-Resp origin timestamp of 1000000060 ns, the raw RTT computed by the
code is 20060 ns (not 80000) and the smoothed RTT becomes
`(3*40000 + 20060)/4 = 35015` (not 50000). -/
theorem s3_rtt_not_50000 :
    parse_timestamp delayScenMsg = 1000000060 ∧
    u64sub (parse_timestamp delayScenMsg)
        (u64sub delayScenState.time_last (delayScenState.ptp_rtt / 2)) %
        U32MOD = 20060 ∧
    (20060 : Nat) ≠ 80000 ∧
    (handle_msg delayScenState delayScenMsg 54 0).st.ptp_rtt = 35015 ∧
    (35015 : Nat) ≠ 50000 := by decide

/-- C6 amended: in scenario S3 the accepted Delay-Resp with origin
timestamp 1000000060 ns yields a raw RTT of 20060 ns, which passes the
200000 ns plausibility check, and the smoothed `rtt_ns` becomes
`(3*40000 + 20060)/4 = 35015`. -/
theorem s3_rtt_smoothing :
    u64sub (parse_timestamp delayScenMsg)
        (u64sub delayScenState.time_last (delayScenState.ptp_rtt / 2)) %
        U32MOD = 20060 ∧
    (20060 : Nat) ≤ 200000 ∧
    (handle_msg delayScenState delayScenMsg 54 0).st.ptp_rtt =
      (3 * 40000 + 20060) / 4 ∧
    (3 * 40000 + 20060) / 4 = 35015 ∧
    (handle_msg delayScenState delayScenMsg 54 0).st.state =
      PtpState.idle := by decide

/-- C7 counterexample: an Announce from the currently selected server
(stored UTC offset 5 s, announced UTC offset 37 s) refreshes the priority
but leaves `ptp_utc_offset` at 5: the claim that the UTC offset is stored
on such an Announce is false. -/
theorem announce_from_selected_keeps_old_utc_offset :
    selAnnState.ptp_utc_offset = 5 ∧
    selAnnMsg.annUtcOffset = 37 ∧
    (handle_msg selAnnState selAnnMsg 64 0).st.ptp_utc_offset = 5 ∧
    (5 : Nat) ≠ 37 ∧
    (handle_msg selAnnState selAnnMsg 64 0).st.server_prio = 7 := by decide

/-- C7 amended: when an Announce arrives from the currently selected
server, the handler refreshes `selected_server.priority1` to the announced
value and changes nothing else — in particular `utc_offset_s` keeps its old
value (it is only stored when switching to a new server). -/
theorem announce_from_selected_refreshes_prio_only
    (st : ClientState) (d : Datagram) (len ts : Nat)
    (hv1 : d.versionMajor = 2) (hv2 : d.versionMinor ≤ 1)
    (hm : d.messageType = MSG_TYPE_ANNOUNCE)
    (hlen : ptpAnnounceSize ≤ len)
    (hsel : is_selected_ptp_server st d.clockIdentity) :
    (handle_msg st d len ts).st = { st with server_prio := d.annPriority1 } ∧
    (handle_msg st d len ts).actions = [] := by
  have hhdr : ptpHdrSize ≤ len := by
    unfold ptpAnnounceSize ptpHdrSize at *
    omega
  simp only [handle_msg, hm, MSG_TYPE_SYNC, MSG_TYPE_FOLLOW_UP,
    MSG_TYPE_DELAY_RESP, MSG_TYPE_ANNOUNCE, handle_announce, hv1, hv2]
  rw [if_neg (by omega), if_neg (by omega)]
  simp [hsel, if_neg (show ¬ len < ptpAnnounceSize by omega)]

/-- C2 counterexample: the RTT comparison happens on the `uint64_t`
difference truncated to `uint32_t`.  With `pending_tx_ts = 2^32`,
`rtt_ns = 0` and a server capture timestamp of 100 ns, the raw RTT
`100 - 2^32` is negative, yet the truncated value is 100, the plausibility
check passes, and `rtt_ns` becomes 100 instead of being reset to 0. -/
theorem negative_raw_rtt_accepted :
    ((100 : Int) - ((4294967296 : Int) - (bootRttState.ptp_rtt / 2 : Nat)) < 0) ∧
    (adjust_rtt bootRttState 4294967296 100).ptp_rtt = 100 ∧
    (100 : Nat) ≠ 0 := by decide

/-- C2 amended: on an accepted Delay-Resp the client computes the raw RTT
modulo 2^32 — `tmp = (server_capture_ts - (pending_tx_ts - rtt_ns/2)) mod
2^32` as an unsigned 32-bit value; if that truncated value exceeds
200000 ns (which covers most, but not all, negative raw values) `rtt_ns` is
reset to 0; otherwise the new `rtt_ns` is `(3*rtt_ns + tmp)/4` when a prior
non-zero estimate exists, else `tmp` itself; in every case `last_sync`
(`last_server_time`) is reset so the next Sync does not compute a drift
estimate across the RTT change, and the stored RTT stays at most
200000 ns. -/
theorem adjust_rtt_mod_2_32 (st : ClientState) (sent received : Nat)
    (h3 : st.ptp_rtt ≤ 200000) :
    (adjust_rtt st sent received).ptp_rtt =
      (if 200000 <
          (((received : Int) - ((sent : Int) - (st.ptp_rtt / 2 : Nat))) %
            (U32MOD : Int)).toNat then 0
       else if st.ptp_rtt ≠ 0 then
         (3 * st.ptp_rtt +
           (((received : Int) - ((sent : Int) - (st.ptp_rtt / 2 : Nat))) %
             (U32MOD : Int)).toNat) / 4
       else
         (((received : Int) - ((sent : Int) - (st.ptp_rtt / 2 : Nat))) %
           (U32MOD : Int)).toNat) ∧
    (adjust_rtt st sent received).last_sync = 0 ∧
    (adjust_rtt st sent received).ptp_rtt ≤ 200000 := by
  have key : u64sub received (u64sub sent (st.ptp_rtt / 2)) % U32MOD =
      (((received : Int) - ((sent : Int) - (st.ptp_rtt / 2 : Nat))) %
        (U32MOD : Int)).toNat := by
    unfold u64sub U64MOD U32MOD
    omega
  have hX : (((received : Int) - ((sent : Int) - (st.ptp_rtt / 2 : Nat))) %
      (U32MOD : Int)).toNat < U32MOD := by
    unfold U32MOD
    omega
  simp only [adjust_rtt, key]
  clear key
  revert hX
  generalize (((received : Int) - ((sent : Int) - (st.ptp_rtt / 2 : Nat))) %
      (U32MOD : Int)).toNat = X
  intro hX
  refine ⟨?_, by trivial, ?_⟩
  · split_ifs with hbig hnz
    · rfl
    · unfold U32MOD at hX ⊢
      omega
    · rfl
  · split_ifs with hbig hnz
    · exact Nat.zero_le _
    · have e1 : 3 * st.ptp_rtt % U32MOD = 3 * st.ptp_rtt := by
        unfold U32MOD
        omega
      have e2 : (3 * st.ptp_rtt + X) % U32MOD = 3 * st.ptp_rtt + X := by
        unfold U32MOD
        omega
      rw [e1, e2]
      omega
    · omega

/-- C2 amended, witness: the S3 delay measurement instantiates the
mod-2^32 description. -/
theorem adjust_rtt_mod_witness :
    (adjust_rtt delayScenState 1000000000 1000000060).ptp_rtt =
      (if 200000 <
          ((((1000000060 : Nat) : Int) -
            (((1000000000 : Nat) : Int) -
              (delayScenState.ptp_rtt / 2 : Nat))) %
            (U32MOD : Int)).toNat then 0
       else if delayScenState.ptp_rtt ≠ 0 then
         (3 * delayScenState.ptp_rtt +
           ((((1000000060 : Nat) : Int) -
             (((1000000000 : Nat) : Int) -
               (delayScenState.ptp_rtt / 2 : Nat))) %
             (U32MOD : Int)).toNat) / 4
       else
         ((((1000000060 : Nat) : Int) -
           (((1000000000 : Nat) : Int) -
             (delayScenState.ptp_rtt / 2 : Nat))) %
           (U32MOD : Int)).toNat) ∧
    (adjust_rtt delayScenState 1000000000 1000000060).last_sync = 0 ∧
    (adjust_rtt delayScenState 1000000000 1000000060).ptp_rtt ≤ 200000 :=
  adjust_rtt_mod_2_32 delayScenState 1000000000 1000000060 (by decide)

/-- A well-formed Sync datagram whose 40-byte payload is above the claimed
34-byte header minimum but below `sizeof(ptp_hdr_t) = 44`. -/
def shortSyncMsg : Datagram :=
  { messageType := 0x0, versionMajor := 2, versionMinor := 0,
    declaredLength := 40, flags := 0,
    clockIdentity := List.replicate 8 0, sequenceId := 0,
    timeSeconds := [0, 0, 0, 0, 0, 0], timeNanoseconds := 0,
    annUtcOffset := 0, annPriority1 := 0,
    respClientClockIdentity := List.replicate 8 0 }

/-- C8 counterexample: the truncation thresholds are the sizes of the
packed C structs, whose "header" already contains the 10-byte origin
timestamp.  A valid-version Sync carried in a 40-byte payload — at least
the 34 bytes the claim allows for the header — is rejected as truncated,
because the code compares against `sizeof(ptp_hdr_t) = 44`. -/
theorem truncated_below_44_not_34 :
    (34 : Nat) ≤ 40 ∧
    shortSyncMsg.versionMajor = 2 ∧ shortSyncMsg.versionMinor = 0 ∧
    (handle_msg (initClientState (List.replicate 8 4)) shortSyncMsg 40 0).ret =
      HandleRet.errBadMsg ∧
    ptpHdrSize = 44 ∧ ptpDelayRespSize = 54 ∧ ptpAnnounceSize = 64 := by
  decide

/-- C8 amended: decoding rejects a datagram whose PTP major version is not
2 or whose minor version exceeds 1; rejects as truncated a payload smaller
than the 44-byte `ptp_hdr_t` (the struct includes the 10-byte origin
timestamp), a Delay-Resp (reaching its body checks) smaller than 54 bytes,
or an Announce smaller than 64 bytes; and the receive callback silently
discards a datagram whose declared header length exceeds the received
payload, or which carries no RX hardware timestamp. -/
theorem decode_reject_rules (st : ClientState) (d : Datagram)
    (len ts res : Nat) :
    ((d.versionMajor ≠ 2 ∨ 1 < d.versionMinor) →
      handle_msg st d len ts = ⟨st, [], HandleRet.errNotSup⟩) ∧
    (d.versionMajor = 2 → d.versionMinor ≤ 1 → len < ptpHdrSize →
      handle_msg st d len ts = ⟨st, [], HandleRet.errBadMsg⟩) ∧
    (d.versionMajor = 2 → d.versionMinor ≤ 1 → ptpHdrSize ≤ len →
      d.messageType = MSG_TYPE_DELAY_RESP →
      is_selected_ptp_server st d.clockIdentity →
      st.state = PtpState.waitForDelayResp → len < ptpDelayRespSize →
      handle_msg st d len ts = ⟨st, [], HandleRet.errBadMsg⟩) ∧
    (d.versionMajor = 2 → d.versionMinor ≤ 1 → ptpHdrSize ≤ len →
      d.messageType = MSG_TYPE_ANNOUNCE → len < ptpAnnounceSize →
      handle_msg st d len ts = ⟨st, [], HandleRet.errBadMsg⟩) ∧
    (res < d.declaredLength → ptp_handler st d res (some ts) = (st, [])) ∧
    (ptp_handler st d res none = (st, [])) := by
  refine ⟨?_, ?_, ?_, ?_, ?_, ?_⟩
  · intro hv
    rw [handle_msg, if_pos hv]
  · intro hv1 hv2 hlen
    rw [handle_msg, if_neg (by omega), if_pos hlen]
  · intro hv1 hv2 hlen hm hsel hphase hshort
    rw [handle_msg, if_neg (by omega), if_neg (by omega)]
    rw [if_neg (by rw [hm]; decide), if_neg (by rw [hm]; decide),
      if_pos hm, if_pos ⟨hsel, hphase⟩, if_pos hshort]
  · intro hv1 hv2 hlen hm hshort
    rw [handle_msg, if_neg (by omega), if_neg (by omega)]
    rw [if_neg (by rw [hm]; decide), if_neg (by rw [hm]; decide),
      if_neg (by rw [hm]; decide), if_pos hm, if_pos hshort]
  · intro hmis
    rw [ptp_handler, if_pos hmis]
  · rfl

/-- C8 amended, witness: the short Sync is rejected as truncated, and a
payload shorter than the declared length is dropped. -/
theorem decode_reject_witness :
    handle_msg (initClientState (List.replicate 8 4)) shortSyncMsg 40 0 =
      ⟨initClientState (List.replicate 8 4), [], HandleRet.errBadMsg⟩ ∧
    ptp_handler (initClientState (List.replicate 8 4)) shortSyncMsg 30
      (some 0) = (initClientState (List.replicate 8 4), []) :=
  ⟨(decode_reject_rules (initClientState (List.replicate 8 4)) shortSyncMsg
      40 0 30).2.1 (by decide) (by decide) (by decide),
   (decode_reject_rules (initClientState (List.replicate 8 4)) shortSyncMsg
      40 0 30).2.2.2.2.1 (by decide)⟩

/-- C7 amended, witness at the concrete Announce scenario. -/
theorem announce_refresh_witness :
    (handle_msg selAnnState selAnnMsg 64 0).st =
      { selAnnState with server_prio := selAnnMsg.annPriority1 } ∧
    (handle_msg selAnnState selAnnMsg 64 0).actions = [] :=
  announce_from_selected_refreshes_prio_only selAnnState selAnnMsg 64 0
    (by decide) (by decide) (by decide) (by decide) (by decide)

/-- The five acceptance conditions the Delay-Resp handler imposes (§4.5 of
the spec): selected sender, right phase, full body present, our clock id,
matching sequence id. -/
def delayRespChecks (st : ClientState) (d : Datagram) (len : Nat) : Prop :=
  is_selected_ptp_server st d.clockIdentity ∧
  st.state = PtpState.waitForDelayResp ∧
  ptpDelayRespSize ≤ len ∧
  d.respClientClockIdentity = st.ptp_local_clock_id ∧
  d.sequenceId = st.delay_req_sequence_id

instance (st : ClientState) (d : Datagram) (len : Nat) :
    Decidable (delayRespChecks st d len) := by
  unfold delayRespChecks
  infer_instance

/-- C1: a Delay-Resp changes the client (state or visible actions) only
when the sender is the selected server, the phase is WAIT_FOR_DELAY_RESP,
the payload holds the full Delay-Resp body, the body names our clock id
and the sequence id matches the pending request; whenever any of these
checks fails — including a Delay-Resp in any other phase — the message is
discarded silently: the state (in particular `rtt_ns`) is left unchanged
and no action is emitted. -/
theorem delay_resp_filter (st : ClientState) (d : Datagram) (len ts : Nat)
    (hm : d.messageType = MSG_TYPE_DELAY_RESP) :
    (((handle_msg st d len ts).st ≠ st ∨
        (handle_msg st d len ts).actions ≠ []) →
      delayRespChecks st d len) ∧
    (¬ delayRespChecks st d len →
      (handle_msg st d len ts).st = st ∧
      (handle_msg st d len ts).actions = [] ∧
      (handle_msg st d len ts).st.ptp_rtt = st.ptp_rtt) := by
  by_cases hv : d.versionMajor ≠ 2 ∨ 1 < d.versionMinor
  · rw [handle_msg, if_pos hv]
    simp
  · rw [handle_msg, if_neg hv]
    by_cases hlen : len < ptpHdrSize
    · rw [if_pos hlen]
      simp
    · rw [if_neg hlen, if_neg (by rw [hm]; decide),
        if_neg (by rw [hm]; decide), if_pos hm]
      by_cases hsel : is_selected_ptp_server st d.clockIdentity ∧
          st.state = PtpState.waitForDelayResp
      · rw [if_pos hsel]
        by_cases h54 : len < ptpDelayRespSize
        · rw [if_pos h54]
          simp
        · rw [if_neg h54]
          by_cases hid : d.respClientClockIdentity ≠ st.ptp_local_clock_id
          · rw [if_pos hid]
            simp
          · rw [if_neg hid]
            by_cases hseq : d.sequenceId ≠ st.delay_req_sequence_id
            · rw [if_pos hseq]
              simp
            · rw [if_neg hseq]
              have hch : delayRespChecks st d len :=
                ⟨hsel.1, hsel.2, not_lt.mp h54, not_ne_iff.mp hid,
                 not_ne_iff.mp hseq⟩
              exact ⟨fun _ => hch, fun hn => absurd hch hn⟩
      · rw [if_neg hsel]
        simp

/-- Delay-Resp addressed to a different client: its body carries a foreign
client clock identity. -/
def foreignDelayRespMsg : Datagram :=
  { delayScenMsg with respClientClockIdentity := List.replicate 8 1 }

/-- C1 witness: a Delay-Resp with a foreign client clock identity,
received while waiting, is discarded with the whole state intact. -/
theorem delay_resp_filter_witness :
    ¬ delayRespChecks delayScenState foreignDelayRespMsg 54 ∧
    (handle_msg delayScenState foreignDelayRespMsg 54 0).st =
      delayScenState ∧
    (handle_msg delayScenState foreignDelayRespMsg 54 0).actions = [] ∧
    (handle_msg delayScenState foreignDelayRespMsg 54 0).st.ptp_rtt =
      delayScenState.ptp_rtt := by
  have h := (delay_resp_filter delayScenState foreignDelayRespMsg 54 0
    (by decide)).2 (by decide)
  exact ⟨by decide, h.1, h.2.1, h.2.2⟩

/-- State while a Delay-Req is in flight: `time_last` holds the TX
timestamp of the pending request. -/
def pendingDelayState : ClientState :=
  { initClientState (List.replicate 8 7) with
      state := PtpState.waitForDelayResp
      time_last := 123
      delay_req_sequence_id := 9 }

/-- A two-step Sync (TWO_STEP flag set) from the selected (all-zero) server. -/
def twoStepSyncMsg : Datagram :=
  { messageType := 0x0, versionMajor := 2, versionMinor := 1,
    declaredLength := 44, flags := 0x0200,
    clockIdentity := List.replicate 8 0, sequenceId := 42,
    timeSeconds := [0, 0, 0, 0, 0, 0], timeNanoseconds := 0,
    annUtcOffset := 0, annPriority1 := 0,
    respClientClockIdentity := List.replicate 8 0 }

/-- C9: the Sync case carries no phase guard.  A two-step Sync from the
selected server received in WAIT_FOR_DELAY_RESP overwrites `time_last`
(which held the Delay-Req TX timestamp) with the Sync RX timestamp,
overwrites `sequence_id`, and moves the phase to WAIT_FOR_FOLLOW_UP,
silently abandoning the pending delay measurement. -/
theorem sync_overrides_delay_wait (st : ClientState) (d : Datagram)
    (len ts : Nat)
    (hphase : st.state = PtpState.waitForDelayResp)
    (hm : d.messageType = MSG_TYPE_SYNC)
    (hsel : is_selected_ptp_server st d.clockIdentity)
    (hv1 : d.versionMajor = 2) (hv2 : d.versionMinor ≤ 1)
    (hlen : ptpHdrSize ≤ len)
    (h2s : d.flags &&& FLAG_TWO_STEP ≠ 0)
    (hts : ts < U64MOD) :
    (handle_msg st d len ts).st.time_last = ts ∧
    (handle_msg st d len ts).st.sequence_id = d.sequenceId ∧
    (handle_msg st d len ts).st.state = PtpState.waitForFollowUp ∧
    (handle_msg st d len ts).actions = [] := by
  rw [handle_msg, if_neg (by omega), if_neg (by omega), if_pos hm,
    if_pos hsel, if_neg h2s]
  exact ⟨Nat.mod_eq_of_lt hts, rfl, rfl, rfl⟩

/-- C9 witness: the concrete two-step Sync at RX timestamp 777 replaces
the pending TX timestamp 123. -/
theorem sync_overrides_witness :
    (handle_msg pendingDelayState twoStepSyncMsg 44 777).st.time_last =
      777 ∧
    (handle_msg pendingDelayState twoStepSyncMsg 44 777).st.sequence_id =
      twoStepSyncMsg.sequenceId ∧
    (handle_msg pendingDelayState twoStepSyncMsg 44 777).st.state =
      PtpState.waitForFollowUp ∧
    (handle_msg pendingDelayState twoStepSyncMsg 44 777).actions = [] :=
  sync_overrides_delay_wait pendingDelayState twoStepSyncMsg 44 777
    (by decide) (by decide) (by decide) (by decide) (by decide)
    (by decide) (by decide) (by decide)

/-- C10: the server clock id boots as eight zero bytes (zero-initialised
C global), so before any Announce has switched servers, any message whose
source clock identity is all zeros passes the selected-server check; in
particular a one-step Sync with an all-zero clock identity already steps
the local clock. -/
theorem zero_server_id_at_boot (lid : List Nat) (d : Datagram)
    (len ts : Nat)
    (hid : d.clockIdentity = List.replicate 8 0)
    (hm : d.messageType = MSG_TYPE_SYNC)
    (hv1 : d.versionMajor = 2) (hv2 : d.versionMinor ≤ 1)
    (hlen : ptpHdrSize ≤ len)
    (h1s : d.flags &&& FLAG_TWO_STEP = 0) :
    (initClientState lid).ptp_server_clock_id = List.replicate 8 0 ∧
    is_selected_ptp_server (initClientState lid) d.clockIdentity ∧
    (handle_msg (initClientState lid) d len ts).actions.any
      isClockAdjustB = true := by
  have hsel : is_selected_ptp_server (initClientState lid) d.clockIdentity := by
    rw [is_selected_ptp_server, hid]
    exact rfl
  refine ⟨rfl, hsel, ?_⟩
  rw [handle_msg, if_neg (by omega), if_neg (by omega), if_pos hm,
    if_pos hsel, if_pos h1s]
  rw [adjust_time, if_neg (by simp [initClientState])]
  rfl

/-- C10 witness: a concrete all-zero-identity one-step Sync on the boot
state produces a clock adjustment. -/
theorem zero_server_id_witness :
    (initClientState (List.replicate 8 9)).ptp_server_clock_id =
      List.replicate 8 0 ∧
    is_selected_ptp_server (initClientState (List.replicate 8 9))
      shortSyncMsg.clockIdentity ∧
    (handle_msg (initClientState (List.replicate 8 9)) shortSyncMsg 44
      1000).actions.any isClockAdjustB = true :=
  zero_server_id_at_boot (List.replicate 8 9) shortSyncMsg 44 1000
    (by decide) (by decide) (by decide) (by decide) (by decide) (by decide)

/-- The drift update as §4.6 of the spec words it: raw estimate
`(offset_ns << 32) / interval` (C truncating division), smoothing
`raw/8 + drift_q32` when a previous non-zero estimate exists, and the
±42949673 plausibility clamp.  Stated from the spec's words, to compare
`adjust_time` against. -/
def specDriftUpdate (drift_q32 offset_ns interval : Int) : Int :=
  let raw := Int.tdiv (offset_ns * 4294967296) interval
  let sm := if drift_q32 ≠ 0 then Int.tdiv raw 8 + drift_q32 else raw
  if sm < -42949673 ∨ 42949673 < sm then 0 else sm

/-- Client state of scenario S1: fresh boot, `rtt_ns = 0`, no previous
sync. -/
def syncScenState : ClientState := initClientState (List.replicate 8 7)

/-- One-step Sync of scenario S1: origin timestamp 1700000000 s +
500000000 ns, flags 0. -/
def syncScenMsg : Datagram :=
  { messageType := 0x0, versionMajor := 2, versionMinor := 0,
    declaredLength := 44, flags := 0,
    clockIdentity := List.replicate 8 0, sequenceId := 1,
    timeSeconds := [0x00, 0x00, 0x65, 0x53, 0xF1, 0x00],
    timeNanoseconds := 500000000,
    annUtcOffset := 0, annPriority1 := 0,
    respClientClockIdentity := List.replicate 8 0 }

/-- Client state with a previous synchronization point at server time
1e9 ns, used to exercise the drift filter. -/
def driftScenState : ClientState :=
  { initClientState (List.replicate 8 7) with last_sync := 1000000000 }

/-- C4: `adjust_time(server_ts, local_ts)` steps the hardware clock by
exactly `server_ts - local_ts + rtt_ns/2` (for timestamps inside the
`int64_t` range), and in scenario S1 — one-step Sync from the selected
server, origin 1700000000 s + 500000000 ns, RX timestamp 1700000000 s +
500001000 ns, `rtt_ns = 0` — the clock is adjusted by -1000 ns and the
phase remains IDLE. -/
theorem adjust_time_steps_by_offset (st : ClientState) (server lts : Nat)
    (hs : (server : Int) < I64BOUND) (hl : (lts : Int) < I64BOUND)
    (hoff : |(server : Int) - lts + (st.ptp_rtt / 2 : Nat)| < I64BOUND) :
    (adjust_time st server lts).2.head? =
      some (Action.clockAdjust
        ((server : Int) - lts + (st.ptp_rtt / 2 : Nat))) ∧
    (handle_msg syncScenState syncScenMsg 44 1700000000500001000).actions =
      [Action.clockAdjust (-1000)] ∧
    (handle_msg syncScenState syncScenMsg 44 1700000000500001000).st.state =
      PtpState.idle := by
  refine ⟨?_, by decide, by decide⟩
  obtain ⟨ho1, ho2⟩ := abs_lt.mp hoff
  have hts : toI64 server = server := toI64_eq_self hs
  have htl : toI64 lts = lts := toI64_eq_self hl
  have h0 : wrapI64 ((server : Int) - lts) = (server : Int) - lts :=
    wrapI64_eq_self (by unfold I64BOUND at *; omega)
      (by unfold I64BOUND at *; omega)
  have h1 : wrapI64 ((server : Int) - lts + (st.ptp_rtt / 2 : Nat)) =
      (server : Int) - lts + (st.ptp_rtt / 2 : Nat) :=
    wrapI64_eq_self (le_of_lt ho1) ho2
  simp only [adjust_time, hts, htl, h0, h1]
  split <;> rfl

/-- C4 witness: scenario S1 instantiates the step formula with offset
-1000 ns. -/
theorem adjust_time_s1_witness :
    (adjust_time syncScenState 1700000000500000000
        1700000000500001000).2.head? =
      some (Action.clockAdjust
        (((1700000000500000000 : Nat) : Int) -
          ((1700000000500001000 : Nat) : Int) +
          ((syncScenState.ptp_rtt / 2 : Nat) : Int))) ∧
    (handle_msg syncScenState syncScenMsg 44 1700000000500001000).actions =
      [Action.clockAdjust (-1000)] ∧
    (handle_msg syncScenState syncScenMsg 44 1700000000500001000).st.state =
      PtpState.idle :=
  adjust_time_steps_by_offset syncScenState 1700000000500000000
    1700000000500001000 (by decide) (by decide) (by decide)

/-- Bound on C's truncating division by 8, used for the drift smoothing
overflow argument. -/
theorem tdiv8_bound {k : Int} (hk1 : -2147483648 < k)
    (hk2 : k < 2147483648) :
    -268435456 < Int.tdiv k 8 ∧ Int.tdiv k 8 < 268435456 := by
  rcases le_or_lt 0 k with hk | hk
  · rw [Int.tdiv_eq_ediv hk (by norm_num)]
    constructor <;> omega
  · have hkneg : Int.tdiv k 8 = -(Int.tdiv (-k) 8) := by
      rw [← Int.neg_tdiv, neg_neg]
    rw [hkneg, Int.tdiv_eq_ediv (by omega) (by norm_num)]
    constructor <;> omega

/-- C3: whenever `last_sync` is present, the drift stored by `adjust_time`
is clamped — after every drift update `|drift_q32| ≤ 42949673` — and, for
inputs where the C arithmetic does not overflow (timestamps inside
`int64_t`, growing server time, offset and raw drift inside `int32_t`,
plausible previous drift), the new value is exactly the spec formula:
`raw := (offset_ns << 32) / interval`, smoothed to `raw/8 + drift_q32`
when the previous drift is non-zero (else `raw`), then reset to 0 if its
magnitude exceeds 42949673. -/
theorem drift_update_clamped (st : ClientState) (server lts : Nat)
    (h : st.last_sync ≠ 0) :
    |(adjust_time st server lts).1.ptp_clock_drift| ≤ 42949673 ∧
    ((server : Int) < I64BOUND → (lts : Int) < I64BOUND →
     st.last_sync < server →
     |(server : Int) - lts + (st.ptp_rtt / 2 : Nat)| < I32BOUND →
     |Int.tdiv (((server : Int) - lts + (st.ptp_rtt / 2 : Nat)) *
         4294967296) ((server : Int) - (st.last_sync : Int))| < I32BOUND →
     |st.ptp_clock_drift| ≤ 42949673 →
     (adjust_time st server lts).1.ptp_clock_drift =
       specDriftUpdate st.ptp_clock_drift
         ((server : Int) - lts + (st.ptp_rtt / 2 : Nat))
         ((server : Int) - (st.last_sync : Int))) := by
  constructor
  · simp only [adjust_time, if_pos h]
    split <;> split <;>
      first
      | decide
      | (rw [abs_le]; constructor <;> omega)
  · intro hs hl hlt hoff hraw hdrift
    obtain ⟨ho1, ho2⟩ := abs_lt.mp hoff
    obtain ⟨hr1, hr2⟩ := abs_lt.mp hraw
    obtain ⟨hd1, hd2⟩ := abs_le.mp hdrift
    unfold I64BOUND at hs hl
    unfold I32BOUND at ho1 ho2 hr1 hr2
    have hq := tdiv8_bound hr1 hr2
    have hb1 : -(9223372036854775808 : Int) ≤ (server : Int) - lts := by
      omega
    have hb2 : (server : Int) - lts < 9223372036854775808 := by omega
    have hb3 : -(9223372036854775808 : Int) ≤
        (server : Int) - lts + (st.ptp_rtt / 2 : Nat) := by omega
    have hb4 : (server : Int) - lts + (st.ptp_rtt / 2 : Nat) <
        9223372036854775808 := by omega
    have hb5 : -(9223372036854775808 : Int) ≤
        ((server : Int) - lts + (st.ptp_rtt / 2 : Nat)) * 4294967296 := by
      omega
    have hb6 : ((server : Int) - lts + (st.ptp_rtt / 2 : Nat)) *
        4294967296 < 9223372036854775808 := by omega
    have hb7 : -(2147483648 : Int) ≤ Int.tdiv (Int.tdiv (((server : Int) -
        lts + (st.ptp_rtt / 2 : Nat)) * 4294967296)
        ((server : Int) - (st.last_sync : Int))) 8 +
        st.ptp_clock_drift := by omega
    have hb8 : Int.tdiv (Int.tdiv (((server : Int) - lts +
        (st.ptp_rtt / 2 : Nat)) * 4294967296)
        ((server : Int) - (st.last_sync : Int))) 8 + st.ptp_clock_drift <
        2147483648 := by omega
    have hu1 : server < U64MOD := by unfold U64MOD; omega
    have hu3 : ((server - st.last_sync : Nat) : Int) <
        9223372036854775808 := by omega
    have hu4 : ((server - st.last_sync : Nat) : Int) =
        (server : Int) - (st.last_sync : Int) := by omega
    have hts : toI64 server = server := toI64_eq_self hs
    have htl : toI64 lts = lts := toI64_eq_self hl
    have h0 : wrapI64 ((server : Int) - lts) = (server : Int) - lts :=
      wrapI64_eq_self hb1 hb2
    have h1 : wrapI64 ((server : Int) - lts + (st.ptp_rtt / 2 : Nat)) =
        (server : Int) - lts + (st.ptp_rtt / 2 : Nat) :=
      wrapI64_eq_self hb3 hb4
    have hprod : wrapI64 (((server : Int) - lts +
        (st.ptp_rtt / 2 : Nat)) * 4294967296) =
        ((server : Int) - lts + (st.ptp_rtt / 2 : Nat)) * 4294967296 :=
      wrapI64_eq_self hb5 hb6
    have htmp0 : wrapI32 (Int.tdiv (((server : Int) - lts +
        (st.ptp_rtt / 2 : Nat)) * 4294967296)
        ((server : Int) - (st.last_sync : Int))) =
        Int.tdiv (((server : Int) - lts + (st.ptp_rtt / 2 : Nat)) *
          4294967296) ((server : Int) - (st.last_sync : Int)) :=
      wrapI32_eq_self (le_of_lt hr1) hr2
    have hw : wrapI32 (Int.tdiv (Int.tdiv (((server : Int) - lts +
        (st.ptp_rtt / 2 : Nat)) * 4294967296)
        ((server : Int) - (st.last_sync : Int))) 8 + st.ptp_clock_drift) =
        Int.tdiv (Int.tdiv (((server : Int) - lts +
          (st.ptp_rtt / 2 : Nat)) * 4294967296)
          ((server : Int) - (st.last_sync : Int))) 8 + st.ptp_clock_drift :=
      wrapI32_eq_self hb7 hb8
    have hiv2 : toI64 (u64sub server st.last_sync) =
        (server : Int) - (st.last_sync : Int) := by
      rw [u64sub_eq_sub (le_of_lt hlt) hu1, toI64_eq_self hu3]
      exact hu4
    simp only [adjust_time, if_pos h, hts, htl, h0, h1, hprod, hiv2,
      htmp0, hw, specDriftUpdate]

/-- C3 witness: a concrete sync interval (offset -100 ns over a 1 s
interval, no previous drift) instantiates both the clamp and the formula. -/
theorem drift_update_witness :
    |(adjust_time driftScenState 2000000000
        2000000100).1.ptp_clock_drift| ≤ 42949673 ∧
    (adjust_time driftScenState 2000000000 2000000100).1.ptp_clock_drift =
      specDriftUpdate driftScenState.ptp_clock_drift
        (((2000000000 : Nat) : Int) - ((2000000100 : Nat) : Int) +
          ((driftScenState.ptp_rtt / 2 : Nat) : Int))
        (((2000000000 : Nat) : Int) - (driftScenState.last_sync : Int)) := by
  have h := drift_update_clamped driftScenState 2000000000 2000000100
    (by decide)
  exact ⟨h.1, h.2 (by decide) (by decide) (by decide) (by decide)
    (by decide) (by decide)⟩

end PtpClient
